import Mathlib

/-!
Verification of the generic filter-and-aggregation engine of an analytics API
(pandas-based Python source).  The development shallowly embeds:

* `apply_filter`              (app/utils/helpers.py)        — recursive filter evaluator
* `add_computed_attributes`   (app/utils/helpers.py)        — per-entity aggregation / enrichment
* `apply_structured_filter`   (app/utils/filter_helpers.py) — mask-select, project, de-duplicate
* `apply_nl_filter`           (app/utils/filter_helpers.py) — NL pipeline tail (extraction already done)
* `nl_filter_agent_data`      (app/routers/agents.py)       — the agents NL-filter route body

Modelling conventions:
* a cell is `Option Rat`: `none` models a null / NaN cell (the dataset columns the
  claims touch are numeric; nulls behave as float NaN does in pandas);
* a dataframe row is an association list from column name to cell; a table carries
  its column list separately (pandas `df.columns`);
* Python exceptions are an explicit error type `PyErr`; an uncaught non-HTTP
  exception is surfaced by the framework as a 500 response (`surfacedStatus`);
* external LLM calls are abstracted as parameters holding their returned value
  (or the exception they raised), exactly at the call boundary in the source.
-/

abbrev Cell := Option Rat

abbrev Row := List (String × Cell)

/-- Cell lookup in a row; a column absent from the row reads as null
(pandas reads a missing entry of an aligned frame as NaN). -/
def Row.get (r : Row) (c : String) : Cell :=
  match r.lookup c with
  | some v => v
  | none => none

structure Table where
  cols : List String
  rows : List Row
deriving Repr

/-- The `value` field of a leaf comparison node: a JSON scalar or a JSON list. -/
inductive Value where
  | scalar : Rat → Value
  | vlist : List Rat → Value
deriving Repr, DecidableEq

/-- Python exceptions relevant to the embedded code. -/
inductive PyErr where
  | valueError : String → PyErr
  | keyError : String → PyErr
  | typeError : String → PyErr
  | indexError : PyErr
  | httpException : Nat → String → PyErr
deriving Repr, DecidableEq

/-- ASCII single-quote, used inside source error messages. -/
def sqt : String := String.singleton (Char.ofNat 39)

/-- Python `str(e)` for each modelled exception (KeyError shows the repr of the
key; a Starlette HTTPException shows its args tuple). -/
def errStr : PyErr → String
  | .valueError m => m
  | .keyError k => sqt ++ k ++ sqt
  | .typeError m => m
  | .indexError => "list index out of range"
  | .httpException s d => "(" ++ toString s ++ ", " ++ sqt ++ d ++ sqt ++ ")"

/-- HTTP status the caller observes: FastAPI returns an HTTPException as its own
status code and turns any other uncaught exception into a 500 response. -/
def surfacedStatus : PyErr → Nat
  | .httpException s _ => s
  | _ => 500

/-- A filter node, mirroring the untyped JSON dict of the source.  The source
tests the keys in the order `and`, `or`, `not` and otherwise dereferences
`column`, `operator`, `value`; `leaf` carries each of the three keys as
`Option` so that nodes with missing keys (malformed shapes) are representable. -/
inductive FilterObj where
  | and : List FilterObj → FilterObj
  | or : List FilterObj → FilterObj
  | not : FilterObj → FilterObj
  | leaf : Option String → Option String → Option Value → FilterObj

/-- Complete leaf node (all three keys present). -/
def FilterObj.cmp (c : String) (op : String) (v : Value) : FilterObj :=
  .leaf (some c) (some op) (some v)

/-- Pointwise comparison of a cell with a scalar under pandas semantics:
`==` is false at NaN, `!=` is true at NaN, orderings are false at NaN. -/
def cellCmp (op : String) (x : Cell) (v : Rat) : Bool :=
  match x with
  | none =>
    -- NaN compares false under every operator except `!=`
    op == "not_equals"
  | some a =>
    match op with
    | "equals" => a == v
    | "not_equals" => a != v
    | "greater_than" => v < a
    | "greater_than_equals" => v ≤ a
    | "less_than" => a < v
    | "less_than_equals" => a ≤ v
    | _ => false

/-- `s.between(lo, hi)` pointwise: inclusive on both ends, false at NaN. -/
def cellBetween (x : Cell) (lo hi : Rat) : Bool :=
  match x with
  | none => false
  | some a => lo ≤ a && a ≤ hi

/-- `s.isin(l)` pointwise: membership, false at NaN (the JSON value lists in
this model hold scalars only). -/
def cellIsin (x : Cell) (l : List Rat) : Bool :=
  match x with
  | none => false
  | some a => l.contains a

/-- A pandas comparison of a series with a value: a scalar broadcasts; a list
must have the length of the series and compares positionally. -/
def seriesCmp (op : String) (s : List Cell) (v : Value) : Except PyErr (List Bool) :=
  match v with
  | .scalar x => .ok (s.map (fun c => cellCmp op c x))
  | .vlist l =>
    if l.length = s.length then .ok (s.zipWith (fun c x => cellCmp op c x) l)
    else .error (.valueError "Lengths must match to compare")

/-- The column of a table as a series of cells. -/
def Table.col (df : Table) (c : String) : List Cell :=
  df.rows.map (fun r => r.get c)

/-- Leaf dispatch of `apply_filter` (helpers.py, the `else` branch): column
resolution, then the operator ladder. -/
def evalLeaf (df : Table) (col : String) (op : String) (v : Value) : Except PyErr (List Bool) :=
  if col ∈ df.cols then
    let s := df.col col
    if op == "equals" || op == "not_equals" || op == "greater_than" ||
       op == "greater_than_equals" || op == "less_than" || op == "less_than_equals" then
      seriesCmp op s v
    else if op == "between" then
      -- the source subscripts `val[0]` and `val[1]`
      match v with
      | .scalar _ => .error (.typeError "argument of type int is not subscriptable")
      | .vlist [] => .error .indexError
      | .vlist [_] => .error .indexError
      | .vlist (lo :: hi :: _) => .ok (s.map (fun c => cellBetween c lo hi))
    else if op == "in" then
      match v with
      | .scalar _ => .error (.typeError "only list-like objects are allowed to be passed to isin")
      | .vlist l => .ok (s.map (fun c => cellIsin c l))
    else if op == "not_in" then
      match v with
      | .scalar _ => .error (.typeError "only list-like objects are allowed to be passed to isin")
      | .vlist l => .ok (s.map (fun c => !cellIsin c l))
    else
      .error (.valueError ("Unsupported operator: " ++ sqt ++ op ++ sqt ++
        " for column " ++ sqt ++ col ++ sqt))
  else
    .error (.valueError ("Unsupported column: " ++ sqt ++ col ++ sqt))

/-- `pd.concat(masks, axis=1).all(axis=1)` for a non-empty mask list. -/
def allAxis1 (m : List Bool) (ms : List (List Bool)) : List Bool :=
  ms.foldl (fun acc m2 => acc.zipWith (· && ·) m2) m

/-- `pd.concat(masks, axis=1).any(axis=1)` for a non-empty mask list. -/
def anyAxis1 (m : List Bool) (ms : List (List Bool)) : List Bool :=
  ms.foldl (fun acc m2 => acc.zipWith (· || ·) m2) m

mutual

/-- `apply_filter(df, filter_obj)` of helpers.py: recursive evaluation of a
filter node to a boolean mask.  `pd.concat` of an empty mask list raises
`ValueError("No objects to concatenate")`. -/
def apply_filter (df : Table) : FilterObj → Except PyErr (List Bool)
  | .and cs =>
    match apply_filter_list df cs with
    | .error e => .error e
    | .ok [] => .error (.valueError "No objects to concatenate")
    | .ok (m :: ms) => .ok (allAxis1 m ms)
  | .or cs =>
    match apply_filter_list df cs with
    | .error e => .error e
    | .ok [] => .error (.valueError "No objects to concatenate")
    | .ok (m :: ms) => .ok (anyAxis1 m ms)
  | .not f =>
    match apply_filter df f with
    | .error e => .error e
    | .ok m => .ok (m.map (!·))
  | .leaf oc oop ov =>
    -- the source dereferences the keys column, operator, value in this order,
    -- before checking the column against df.columns
    match oc with
    | none => .error (.keyError "column")
    | some col =>
      match oop with
      | none => .error (.keyError "operator")
      | some op =>
        match ov with
        | none => .error (.keyError "value")
        | some v => evalLeaf df col op v

/-- The list comprehension `[apply_filter(df, f) for f in children]`: children
evaluated left to right, the first exception propagating. -/
def apply_filter_list (df : Table) : List FilterObj → Except PyErr (List (List Bool))
  | [] => .ok []
  | f :: fs =>
    match apply_filter df f with
    | .error e => .error e
    | .ok m =>
      match apply_filter_list df fs with
      | .error e => .error e
      | .ok ms => .ok (m :: ms)

end

/-- `df[mask]`: the rows selected by a boolean mask (positionally aligned). -/
def maskSelect (rows : List Row) (mask : List Bool) : List Row :=
  (rows.zip mask).filterMap (fun rb => if rb.2 then some rb.1 else none)

/-- `filtered_df[available_cols]`: projection of a row onto a column list. -/
def project (cols : List String) (r : Row) : Row :=
  cols.map (fun c => (c, r.get c))

/-- `drop_duplicates(id_col)`, carrying the set of key values seen so far:
a row is kept iff its key value has not occurred in an earlier row (pandas
keeps the first occurrence and considers NaN keys equal to each other here). -/
def drop_duplicatesAux (id_col : String) (seen : List Cell) : List Row → List Row
  | [] => []
  | r :: rs =>
    if r.get id_col ∈ seen then drop_duplicatesAux id_col seen rs
    else r :: drop_duplicatesAux id_col (r.get id_col :: seen) rs

/-- `drop_duplicates(id_col)` keeping the first occurrence of each key value. -/
def drop_duplicates (id_col : String) (rows : List Row) : List Row :=
  drop_duplicatesAux id_col [] rows

/-- `apply_structured_filter(df, filter_structure, id_col, attribute_cols)` of
filter_helpers.py: evaluate the filter, select, project onto the available
attribute columns, de-duplicate by entity id; a `ValueError` becomes an
HTTPException 400 with the same message, everything else propagates. -/
def apply_structured_filter (df : Table) (filter_structure : FilterObj)
    (id_col : String) (attribute_cols : List String) : Except PyErr (List Row) :=
  let body : Except PyErr (List Row) :=
    match apply_filter df filter_structure with
    | .error e => .error e
    | .ok mask =>
      let filtered := maskSelect df.rows mask
      if filtered.isEmpty then .ok []
      else
        let available := attribute_cols.filter (fun c => c ∈ df.cols)
        -- drop_duplicates(id_col) raises KeyError when id_col was projected away
        if id_col ∈ available then
          .ok (drop_duplicates id_col (filtered.map (project available)))
        else .error (.keyError id_col)
  match body with
  | .error (.valueError m) => .error (.httpException 400 m)
  | r => r

/-- `apply_nl_filter(df, query, id_col, attribute_cols)` of filter_helpers.py,
with the external extraction call abstracted as `extracted`: either the decoded
`filter_object` field (`none` models the null / empty object, which is falsy in
Python) or the exception the call raised.  The whole body sits in a
`try/except ValueError/except Exception` ladder; an HTTPException raised inside
the body is itself caught by the bare `except Exception` branch and re-raised
as a 500. -/
def apply_nl_filter (df : Table) (extracted : Except PyErr (Option FilterObj))
    (id_col : String) (attribute_cols : List String) : Except PyErr (List Row) :=
  let body : Except PyErr (List Row) :=
    match extracted with
    | .error e => .error e
    | .ok none =>
      .error (.httpException 400 "Could not extract filtering criteria from query")
    | .ok (some filter_structure) =>
      apply_structured_filter df filter_structure id_col attribute_cols
  match body with
  | .ok r => .ok r
  | .error (.valueError m) => .error (.httpException 400 m)
  | .error e =>
    .error (.httpException 500 ("Error processing query: " ++ errStr e))

/-!  The Attribute Aggregator: `add_computed_attributes(df, id_col)`. -/

/-- Distinct values in first-occurrence order, carrying the values seen so far
(pandas keeps the first of each duplicate; group keys are additionally sorted
by pandas, but no property below observes their order). -/
def uniqueFirstAux {α : Type} [DecidableEq α] (seen : List α) : List α → List α
  | [] => []
  | a :: l =>
    if a ∈ seen then uniqueFirstAux seen l
    else a :: uniqueFirstAux (a :: seen) l

/-- Distinct values of a list in first-occurrence order. -/
def uniqueFirst {α : Type} [DecidableEq α] (l : List α) : List α :=
  uniqueFirstAux [] l

/-- `df.groupby(g)` group keys: the distinct non-null values of column `g`
(pandas drops null keys). -/
def groupKeys (df : Table) (g : String) : List Rat :=
  uniqueFirst ((df.col g).filterMap id)

/-- The rows of the group with key `k`. -/
def groupRows (df : Table) (g : String) (k : Rat) : List Row :=
  df.rows.filter (fun r => r.get g == some k)

/-- The non-null amounts of the group with key `k` (pandas aggregations skip
NaN values). -/
def groupAmounts (df : Table) (g : String) (k : Rat) : List Rat :=
  ((groupRows df g k).map (fun r => r.get "amount")).filterMap id

/-- `total_transactions`: the `count` aggregate over `amount`, counting the
non-null amounts of the group. -/
def total_transactions_of (df : Table) (g : String) (k : Rat) : Nat :=
  (groupAmounts df g k).length

/-- `nunique` of column `c` within the group with key `k`: distinct non-null
values. -/
def nunique_of (df : Table) (g : String) (k : Rat) (c : String) : Nat :=
  (uniqueFirst (((groupRows df g k).map (fun r => r.get c)).filterMap id)).length

def listMin : List Rat → Cell
  | [] => none
  | a :: l => some (l.foldl min a)

def listMax : List Rat → Cell
  | [] => none
  | a :: l => some (l.foldl max a)

/-- Sample mean; the `mean` aggregate is NaN on a group with no non-null
amount. -/
def meanCell (l : List Rat) : Cell :=
  if l.isEmpty then none else some (l.sum / l.length)

/-- The `std` aggregate is the sample standard deviation (denominator N−1),
NaN when the group has at most one non-null amount.  The square root of the
sample variance is irrational in general and has no exact `Rat` value, so the
model stores the sample variance itself; no property below reads the numeric
value of this column, only whether it is null, and that agrees exactly. -/
def stdCell (l : List Rat) : Cell :=
  if l.length ≤ 1 then none
  else
    let m := l.sum / l.length
    some ((l.map (fun a => (a - m) ^ 2)).sum / ((l.length : Rat) - 1))

/-- The names of the aggregate columns `add_computed_attributes` adds for a
given grouping column, in merge order. -/
def aggColNames (g : String) : List String :=
  ["avg_transaction_amount", "total_transactions", "sum_transaction_amount",
   "min_transaction_amount", "max_transaction_amount", "std_transaction_amount"]
  ++ (if g ≠ "customer_id" then ["unique_customers"] else [])
  ++ (if g = "merchant_id" then ["unique_branch_admins", "unique_terminals"]
      else if g = "branch_admin_id" then ["unique_terminals"] else [])

/-- The columns the groupby pipeline dereferences for a given grouping column,
in the order the source touches them (each missing one raises KeyError). -/
def requiredAggCols (g : String) : List String :=
  ["amount"]
  ++ (if g ≠ "customer_id" then ["customer_id"] else [])
  ++ (if g = "merchant_id" then ["branch_admin_id", "terminal_id"]
      else if g = "branch_admin_id" then ["terminal_id"] else [])

/-- One row of `agg_df` (the per-group aggregate frame, already merged with the
conditional nunique frames): the grouping key followed by the aggregates. -/
def agg_row (df : Table) (g : String) (k : Rat) : Row :=
  let amts := groupAmounts df g k
  [(g, some k),
   ("avg_transaction_amount", meanCell amts),
   ("total_transactions", some (amts.length : Rat)),
   ("sum_transaction_amount", some amts.sum),
   ("min_transaction_amount", listMin amts),
   ("max_transaction_amount", listMax amts),
   ("std_transaction_amount", stdCell amts)]
  ++ (if g ≠ "customer_id" then [("unique_customers", some (nunique_of df g k "customer_id" : Rat))] else [])
  ++ (if g = "merchant_id" then
        [("unique_branch_admins", some (nunique_of df g k "branch_admin_id" : Rat)),
         ("unique_terminals", some (nunique_of df g k "terminal_id" : Rat))]
      else if g = "branch_admin_id" then
        [("unique_terminals", some (nunique_of df g k "terminal_id" : Rat))]
      else [])

/-- The aggregate frame: one row per distinct non-null grouping value. -/
def agg_df (df : Table) (g : String) : List Row :=
  (groupKeys df g).map (agg_row df g)

/-- The left merge `df.merge(agg_df, on=id_col, how="left")` applied to one
row: rows with a null grouping key match nothing and get null aggregates. -/
def mergeAgg (df : Table) (g : String) (r : Row) : Row :=
  match r.get g with
  | none => r ++ (aggColNames g).map (fun c => (c, (none : Cell)))
  | some k => r ++ (aggColNames g).map (fun c => (c, (agg_row df g k).get c))

/-- `add_computed_attributes(df, id_col)` of helpers.py.  The Python argument
is untyped; `none` models the route passing `group_by_column = None`, on which
`df.groupby(None)` raises a TypeError before anything else. -/
def add_computed_attributes (df : Table) (id_col : Option String) : Except PyErr Table :=
  match id_col with
  | none => .error (.typeError "You have to supply one of by and level")
  | some g =>
    if g ∈ df.cols then
      match (requiredAggCols g).find? (fun c => !df.cols.contains c) with
      | some c => .error (.keyError c)
      | none => .ok ⟨df.cols ++ aggColNames g, df.rows.map (mergeAgg df g)⟩
    else .error (.keyError g)

/-!  The agents NL-filter route (app/routers/agents.py). -/

/-- `attribute_cols_base` of app/routers/agents.py. -/
def attribute_cols_base : List String :=
  ["avg_transaction_amount", "total_transactions", "sum_transaction_amount",
   "min_transaction_amount", "max_transaction_amount", "std_transaction_amount",
   "unique_customers", "unique_merchants", "unique_branch_admins", "unique_terminals"]

/-- The body of the `nl_filter_agent_data` route after the entity/date
pre-filtering, with the two concurrent model calls abstracted by their joined
results: `intent_result` is the decoded `filter_intent` boolean and
`group_by_column` the decoded (possibly null) `group_by_column`; `extracted`
abstracts the later filter-extraction call exactly as in `apply_nl_filter`.
The source enriches the table with `add_computed_attributes` (which raises on
a null or unknown grouping column) before it ever tests `filter_intent`. -/
def nl_filter_agent_data (df : Table) (intent_result : Bool)
    (group_by_column : Option String) (extracted : Except PyErr (Option FilterObj)) :
    Except PyErr (List Row) :=
  match add_computed_attributes df group_by_column with
  | .error e => .error e
  | .ok df2 =>
    -- reachable only when group_by_column is non-null (groupby(None) raised above)
    let g := group_by_column.getD ""
    let attribute_cols := g :: attribute_cols_base
    if !intent_result then
      .error (.httpException 400 "Could not determine filtering criteria from query")
    else
      apply_nl_filter df2 extracted g attribute_cols

/-- The body of the `nl_filter_merchants` route (app/routers/merchants.py):
no intent classification and no enrichment, straight to `apply_nl_filter`. -/
def nl_filter_merchants (df : Table) (extracted : Except PyErr (Option FilterObj)) :
    Except PyErr (List Row) :=
  apply_nl_filter df extracted "merchant_id"
    ["merchant_id", "avg_transaction_amount", "total_transactions", "unique_customers"]

/-!  Fixture tables for witnesses and counterexamples. -/

/-- A two-column fixture table (three rows, two merchants). -/
def tShort : Table := ⟨["merchant_id", "amount"],
  [[("merchant_id", some 1), ("amount", some 100)],
   [("merchant_id", some 1), ("amount", some 200)],
   [("merchant_id", some 2), ("amount", some 50)]]⟩

/-- A full-schema fixture table (all columns the aggregator dereferences). -/
def tFull : Table := ⟨["merchant_id", "customer_id", "branch_admin_id", "terminal_id", "amount"],
  [[("merchant_id", some 1), ("customer_id", some 7), ("branch_admin_id", some 3),
    ("terminal_id", some 4), ("amount", some 100)],
   [("merchant_id", some 1), ("customer_id", some 8), ("branch_admin_id", some 3),
    ("terminal_id", some 4), ("amount", some 200)],
   [("merchant_id", some 2), ("customer_id", some 7), ("branch_admin_id", some 3),
    ("terminal_id", some 5), ("amount", some 50)]]⟩

/-- A one-row fixture whose grouping key is null. -/
def tNullKey : Table := ⟨["merchant_id", "amount"],
  [[("merchant_id", none), ("amount", some 5)]]⟩

/-!  General lemmas about the list helpers. -/

theorem mem_uniqueFirstAux {α : Type} [DecidableEq α] (seen : List α) (l : List α) (a : α) :
    a ∈ uniqueFirstAux seen l ↔ a ∈ l ∧ a ∉ seen := by
  induction l generalizing seen with
  | nil => simp [uniqueFirstAux]
  | cons b l ih =>
    simp only [uniqueFirstAux]
    by_cases hb : b ∈ seen
    · rw [if_pos hb, ih seen]
      constructor
      · rintro ⟨h1, h2⟩
        exact ⟨List.mem_cons_of_mem _ h1, h2⟩
      · rintro ⟨h1, h2⟩
        rcases List.mem_cons.1 h1 with h | h
        · subst h
          exact absurd hb h2
        · exact ⟨h, h2⟩
    · rw [if_neg hb]
      constructor
      · intro h
        rcases List.mem_cons.1 h with h | h
        · subst h
          exact ⟨List.mem_cons_self _ _, hb⟩
        · obtain ⟨h1, h2⟩ := (ih (b :: seen)).1 h
          exact ⟨List.mem_cons_of_mem _ h1, fun hs => h2 (List.mem_cons_of_mem _ hs)⟩
      · rintro ⟨h1, h2⟩
        by_cases hab : a = b
        · subst hab
          exact List.mem_cons_self _ _
        · have h1l : a ∈ l := by
            rcases List.mem_cons.1 h1 with h | h
            · exact absurd h hab
            · exact h
          refine List.mem_cons_of_mem _ ((ih (b :: seen)).2 ⟨h1l, ?_⟩)
          intro hs
          rcases List.mem_cons.1 hs with h | h
          · exact hab h
          · exact h2 h

theorem nodup_uniqueFirstAux {α : Type} [DecidableEq α] (seen : List α) (l : List α) :
    (uniqueFirstAux seen l).Nodup := by
  induction l generalizing seen with
  | nil => simp [uniqueFirstAux]
  | cons b l ih =>
    simp only [uniqueFirstAux]
    by_cases hb : b ∈ seen
    · rw [if_pos hb]
      exact ih seen
    · rw [if_neg hb]
      refine List.Nodup.cons ?_ (ih (b :: seen))
      intro hmem
      exact ((mem_uniqueFirstAux _ _ _).1 hmem).2 (List.mem_cons_self _ _)

theorem uniqueFirst_perm_dedup {α : Type} [DecidableEq α] (l : List α) :
    (uniqueFirst l).Perm l.dedup := by
  show (uniqueFirstAux [] l).Perm l.dedup
  rw [List.perm_ext_iff_of_nodup (nodup_uniqueFirstAux [] l) l.nodup_dedup]
  intro a
  rw [List.mem_dedup]
  show a ∈ uniqueFirstAux [] l ↔ a ∈ l
  rw [mem_uniqueFirstAux]
  simp

theorem length_filterMap_id_of_ne_none {α : Type} (l : List (Option α))
    (h : ∀ x ∈ l, x ≠ none) : (l.filterMap id).length = l.length := by
  induction l with
  | nil => rfl
  | cons x l ih =>
    match x, h x (List.mem_cons_self _ _) with
    | some a, _ =>
      simp only [List.filterMap_cons, id, List.length_cons]
      rw [ih (fun y hy => h y (List.mem_cons_of_mem _ hy))]

theorem count_filterMap_id {α : Type} [DecidableEq α] (l : List (Option α)) (k : α) :
    (l.filterMap id).count k = l.countP (fun x => x == some k) := by
  induction l with
  | nil => rfl
  | cons x l ih =>
    cases x with
    | none => simpa [List.filterMap_cons, List.countP_cons] using ih
    | some a =>
      by_cases hk : a = k
      · subst hk
        simp [List.filterMap_cons, List.count_cons, List.countP_cons, ih]
      · simp [List.filterMap_cons, List.count_cons, List.countP_cons, ih, hk]

theorem zipWith_map_same {α β : Type} (f : β → β → β) (g h : α → β) (l : List α) :
    List.zipWith f (l.map g) (l.map h) = l.map (fun x => f (g x) (h x)) := by
  induction l with
  | nil => rfl
  | cons x l ih => simp [ih]

theorem length_filterMap_of_isSome {α β : Type} (f : α → Option β) (l : List α)
    (h : ∀ a ∈ l, (f a).isSome) : (l.filterMap f).length = l.length := by
  induction l with
  | nil => rfl
  | cons x l ih =>
    match hx : f x, h x (List.mem_cons_self _ _) with
    | some b, _ =>
      simp only [List.filterMap_cons, hx, List.length_cons]
      rw [ih (fun y hy => h y (List.mem_cons_of_mem _ hy))]

/-!  Claim theorems. -/

/-- C1 (corrected): on every table, evaluating `and([])` or `or([])` does not
produce a mask at all: the list comprehension yields zero child masks and
`pd.concat` of an empty list raises `ValueError("No objects to concatenate")`
(surfaced by the Structured-Filter Service as an invalid-request 400), instead
of the vacuous all-true / all-false mask the claim states. -/
theorem c1_empty_and_or_raise (df : Table) :
    apply_filter df (.and []) = .error (.valueError "No objects to concatenate") ∧
    apply_filter df (.or []) = .error (.valueError "No objects to concatenate") :=
  ⟨rfl, rfl⟩

/-- C1 counterexample: on a concrete one-row table, `and([])` does not evaluate
to the mask selecting the row and `or([])` does not evaluate to the mask
selecting no row — both evaluations are the empty-concatenation error. -/
theorem c1_counterexample :
    apply_filter tNullKey (.and []) = .error (.valueError "No objects to concatenate") ∧
    apply_filter tNullKey (.and []) ≠ .ok [true] ∧
    apply_filter tNullKey (.or []) ≠ .ok [false] := by
  refine ⟨rfl, fun h => ?_, fun h => ?_⟩ <;> exact Except.noConfusion h

/-- C2 (code bug): when the extraction call returns a null/empty filter object,
`apply_nl_filter` raises `HTTPException(status_code=400, ...)` inside its own
`try` block, but its trailing bare `except Exception` clause catches that very
exception and re-raises it as `HTTPException(500, "Error processing query: ...")`.
The caller therefore observes a 500-equivalent outcome, not the 400-equivalent
the claim states; no filter is applied (`apply_structured_filter` is never
reached, for any id column and attribute list). -/
theorem c2_null_extraction_surfaces_500 (df : Table) (id_col : String)
    (acols : List String) :
    apply_nl_filter df (.ok none) id_col acols =
      .error (.httpException 500 ("Error processing query: " ++
        errStr (.httpException 400 "Could not extract filtering criteria from query"))) ∧
    surfacedStatus (.httpException 500 ("Error processing query: " ++
      errStr (.httpException 400 "Could not extract filtering criteria from query"))) = 500 :=
  ⟨rfl, rfl⟩

/-- C3 (corrected): a node with none of the tagged shapes (no `and`/`or`/`not`
key and an incomplete comparison triple) makes `apply_filter` raise a `KeyError`
for the first missing key — not a ValueError — and `apply_structured_filter`
only converts ValueError to a 400, so the error propagates out of it unhandled
and is surfaced as a 500-equivalent server error, not as an invalid-request
400-equivalent naming the subtree. -/
theorem c3_malformed_leaf_keyerror (df : Table) (id_col : String) (acols : List String)
    (oc : Option String) (oop : Option String) (ov : Option Value)
    (h : oc = none ∨ oop = none ∨ ov = none) :
    ∃ k, (k = "column" ∨ k = "operator" ∨ k = "value") ∧
      apply_filter df (.leaf oc oop ov) = .error (.keyError k) ∧
      apply_structured_filter df (.leaf oc oop ov) id_col acols = .error (.keyError k) ∧
      surfacedStatus (.keyError k) = 500 := by
  cases oc with
  | none => exact ⟨"column", Or.inl rfl, rfl, rfl, rfl⟩
  | some c =>
    cases oop with
    | none => exact ⟨"operator", Or.inr (Or.inl rfl), rfl, rfl, rfl⟩
    | some o =>
      cases ov with
      | none => exact ⟨"value", Or.inr (Or.inr rfl), rfl, rfl, rfl⟩
      | some v => simp at h

/-- C3 witness: the amended statement at the concrete malformed node that has
only an `operator` key, on the concrete fixture table. -/
theorem c3_malformed_leaf_keyerror_witness :
    ((none : Option String) = none ∨ (some "equals" : Option String) = none ∨
      (none : Option Value) = none) ∧
    (∃ k, (k = "column" ∨ k = "operator" ∨ k = "value") ∧
      apply_filter tShort (.leaf none (some "equals") none) = .error (.keyError k) ∧
      apply_structured_filter tShort (.leaf none (some "equals") none) "merchant_id"
        ["merchant_id"] = .error (.keyError k) ∧
      surfacedStatus (.keyError k) = 500) :=
  ⟨Or.inl rfl,
   c3_malformed_leaf_keyerror tShort "merchant_id" ["merchant_id"]
     none (some "equals") none (Or.inl rfl)⟩

/-- C3 counterexample: the empty node `{}` fails with `KeyError("column")`,
which `apply_structured_filter` does not turn into a 400: the surfaced outcome
is a 500-equivalent, contradicting the claimed invalid-request 400-equivalent. -/
theorem c3_counterexample :
    apply_structured_filter tShort (.leaf none none none) "merchant_id" ["merchant_id"] =
      .error (.keyError "column") ∧
    surfacedStatus (.keyError "column") = 500 ∧ (500 : Nat) ≠ 400 :=
  ⟨rfl, rfl, by decide⟩

/-- C5 (confirmed): a complete leaf comparison whose column is not among the
columns of the table fails with a ValueError whose message is
Unsupported column: quoted-col — a message naming the column — and `apply_structured_filter` converts exactly
this ValueError into an HTTPException with status 400 and the same message. -/
theorem c5_unknown_column (df : Table) (col op : String) (v : Value)
    (id_col : String) (acols : List String) (h : col ∉ df.cols) :
    apply_filter df (.cmp col op v) =
      .error (.valueError ("Unsupported column: " ++ sqt ++ col ++ sqt)) ∧
    apply_structured_filter df (.cmp col op v) id_col acols =
      .error (.httpException 400 ("Unsupported column: " ++ sqt ++ col ++ sqt)) ∧
    surfacedStatus (.httpException 400 ("Unsupported column: " ++ sqt ++ col ++ sqt)) = 400 := by
  have h1 : apply_filter df (.cmp col op v) =
      .error (.valueError ("Unsupported column: " ++ sqt ++ col ++ sqt)) := by
    show evalLeaf df col op v = _
    unfold evalLeaf
    rw [if_neg h]
  refine ⟨h1, ?_, rfl⟩
  unfold apply_structured_filter
  rw [h1]

/-- C5 witness: the unknown column `bogus` on the concrete fixture table. -/
theorem c5_unknown_column_witness :
    "bogus" ∉ tShort.cols ∧
    apply_structured_filter tShort (.cmp "bogus" "equals" (.scalar 1)) "merchant_id"
        ["merchant_id"] =
      .error (.httpException 400 ("Unsupported column: " ++ sqt ++ "bogus" ++ sqt)) :=
  ⟨by decide,
   (c5_unknown_column tShort "bogus" "equals" (.scalar 1) "merchant_id" ["merchant_id"]
     (by decide)).2.1⟩

/-- C9 (confirmed): in the agents NL-filter route, a null `group_by_column` is
passed straight to `add_computed_attributes`, whose `df.groupby(None)` raises a
TypeError — an unclassified exception surfaced as a 500-equivalent server
error — before the intent result is ever tested (the outcome is the same for
both intent values) and regardless of the extraction result (the
Structured-Filter Service is never invoked), so none of the specified failure
kinds (intent-not-recognized, filter-not-extracted, invalid-request) occurs. -/
theorem c9_null_group_by_unclassified (df : Table) (intent_result : Bool)
    (extracted : Except PyErr (Option FilterObj)) :
    nl_filter_agent_data df intent_result none extracted =
      .error (.typeError "You have to supply one of by and level") ∧
    surfacedStatus (.typeError "You have to supply one of by and level") = 500 :=
  ⟨rfl, rfl⟩

/-- C10 (confirmed): the mask of a `not_equals` leaf is true at every row whose
cell in the named column is null, for every comparison scalar, and the mask of
a `not_in` leaf is true at such a row for every list of scalars: a null cell
fails `==` and `isin`, and both operators negate those. -/
theorem c10_null_cells_pass_negated (df : Table) (col : String) (i : Nat) (r : Row)
    (v : Rat) (l : List Rat) (hc : col ∈ df.cols) (hr : df.rows[i]? = some r)
    (hnull : r.get col = none) :
    (∃ m, apply_filter df (.cmp col "not_equals" (.scalar v)) = .ok m ∧
      m[i]? = some true) ∧
    (∃ m, apply_filter df (.cmp col "not_in" (.vlist l)) = .ok m ∧
      m[i]? = some true) := by
  have hcell : (df.col col)[i]? = some none := by
    rw [Table.col, List.getElem?_map, hr]
    exact congrArg some hnull
  constructor
  · refine ⟨(df.col col).map (fun c => cellCmp "not_equals" c v), ?_, ?_⟩
    · show evalLeaf df col "not_equals" (.scalar v) = _
      unfold evalLeaf
      rw [if_pos hc]
      rfl
    · rw [List.getElem?_map, hcell]
      rfl
  · refine ⟨(df.col col).map (fun c => !cellIsin c l), ?_, ?_⟩
    · show evalLeaf df col "not_in" (.vlist l) = _
      unfold evalLeaf
      rw [if_pos hc]
      rfl
    · rw [List.getElem?_map, hcell]
      rfl

/-- C10 witness: the concrete one-row table whose `merchant_id` cell is null is
selected by `not_equals 9` and by `not_in [1, 2]`. -/
theorem c10_null_cells_pass_negated_witness :
    "merchant_id" ∈ tNullKey.cols ∧
    tNullKey.rows[0]? = some [("merchant_id", none), ("amount", some 5)] ∧
    Row.get [("merchant_id", none), ("amount", some 5)] "merchant_id" = none ∧
    (∃ m, apply_filter tNullKey (.cmp "merchant_id" "not_equals" (.scalar 9)) = .ok m ∧
      m[0]? = some true) ∧
    (∃ m, apply_filter tNullKey (.cmp "merchant_id" "not_in" (.vlist [1, 2])) = .ok m ∧
      m[0]? = some true) :=
  ⟨by decide, rfl, rfl,
   (c10_null_cells_pass_negated tNullKey "merchant_id" 0
     [("merchant_id", none), ("amount", some 5)] 9 [1, 2] (by decide) rfl rfl).1,
   (c10_null_cells_pass_negated tNullKey "merchant_id" 0
     [("merchant_id", none), ("amount", some 5)] 9 [1, 2] (by decide) rfl rfl).2⟩

/-- The masks of a two-child `and` node: both children evaluate, then the
concatenated pair is reduced by positionwise conjunction. -/
theorem apply_filter_and_pair (df : Table) (f g : FilterObj) (m1 m2 : List Bool)
    (h1 : apply_filter df f = .ok m1) (h2 : apply_filter df g = .ok m2) :
    apply_filter df (.and [f, g]) = .ok (List.zipWith (· && ·) m1 m2) := by
  have hlist : apply_filter_list df [f, g] = .ok [m1, m2] := by
    simp only [apply_filter_list, h1, h2]
  simp only [apply_filter, hlist, allAxis1, List.foldl_cons, List.foldl_nil]

/-- An `and` node whose first child evaluation raises propagates that error. -/
theorem apply_filter_and_pair_err (df : Table) (f g : FilterObj) (e : PyErr)
    (h1 : apply_filter df f = .error e) :
    apply_filter df (.and [f, g]) = .error e := by
  have hlist : apply_filter_list df [f, g] = .error e := by
    simp only [apply_filter_list, h1]
  simp only [apply_filter, hlist]

/-- Pointwise agreement of `between` with the conjunction of the two
orderings, including at a null cell. -/
theorem cellBetween_eq_and (c : Cell) (lo hi : Rat) :
    cellBetween c lo hi =
      (cellCmp "greater_than_equals" c lo && cellCmp "less_than_equals" c hi) := by
  cases c <;> rfl

/-- C6 (confirmed): on every table, for every column and every pair of bounds,
the evaluation of `between(col, [lo, hi])` equals the evaluation of
`and([greater_than_equals(col, lo), less_than_equals(col, hi)])` — the same
mask when the column resolves (inclusive on both ends, null cells selected by
neither), and the identical unknown-column error otherwise. -/
theorem c6_between_decomposes (df : Table) (col : String) (lo hi : Rat) :
    apply_filter df (.cmp col "between" (.vlist [lo, hi])) =
      apply_filter df (.and [.cmp col "greater_than_equals" (.scalar lo),
                             .cmp col "less_than_equals" (.scalar hi)]) := by
  by_cases hc : col ∈ df.cols
  · have hB : apply_filter df (.cmp col "between" (.vlist [lo, hi])) =
        .ok ((df.col col).map (fun c => cellBetween c lo hi)) := by
      show evalLeaf df col "between" (.vlist [lo, hi]) = _
      unfold evalLeaf
      rw [if_pos hc]
      rfl
    have hge : apply_filter df (.cmp col "greater_than_equals" (.scalar lo)) =
        .ok ((df.col col).map (fun c => cellCmp "greater_than_equals" c lo)) := by
      show evalLeaf df col "greater_than_equals" (.scalar lo) = _
      unfold evalLeaf
      rw [if_pos hc]
      rfl
    have hle : apply_filter df (.cmp col "less_than_equals" (.scalar hi)) =
        .ok ((df.col col).map (fun c => cellCmp "less_than_equals" c hi)) := by
      show evalLeaf df col "less_than_equals" (.scalar hi) = _
      unfold evalLeaf
      rw [if_pos hc]
      rfl
    rw [hB, apply_filter_and_pair df _ _ _ _ hge hle, zipWith_map_same]
    congr 1
    exact List.map_congr_left (fun c _ => cellBetween_eq_and c lo hi)
  · have hB : apply_filter df (.cmp col "between" (.vlist [lo, hi])) =
        .error (.valueError ("Unsupported column: " ++ sqt ++ col ++ sqt)) := by
      show evalLeaf df col "between" (.vlist [lo, hi]) = _
      unfold evalLeaf
      rw [if_neg hc]
    have hge : apply_filter df (.cmp col "greater_than_equals" (.scalar lo)) =
        .error (.valueError ("Unsupported column: " ++ sqt ++ col ++ sqt)) := by
      show evalLeaf df col "greater_than_equals" (.scalar lo) = _
      unfold evalLeaf
      rw [if_neg hc]
    rw [hB, apply_filter_and_pair_err df _ _ _ hge]

/-- C4 (corrected): summing the `total_transactions` aggregate over all
G-groups equals the row count of the input table PROVIDED every row carries a
non-null grouping value and a non-null amount; pandas drops null grouping keys
from the groupby and the `count` aggregate skips null amounts, so the equality
requires these hypotheses (see the counterexample). -/
theorem c4_total_transactions_partition (df : Table) (G : String)
    (hkey : ∀ r ∈ df.rows, r.get G ≠ none)
    (hamt : ∀ r ∈ df.rows, r.get "amount" ≠ none) :
    ((groupKeys df G).map (total_transactions_of df G)).sum = df.rows.length := by
  have hvals : ∀ x ∈ df.col G, x ≠ none := by
    intro x hx
    obtain ⟨r, hr, rfl⟩ := List.mem_map.1 hx
    exact hkey r hr
  have hlen : ((df.col G).filterMap id).length = df.rows.length := by
    rw [length_filterMap_id_of_ne_none _ hvals, Table.col, List.length_map]
  have htt : ∀ k, total_transactions_of df G k = ((df.col G).filterMap id).count k := by
    intro k
    have hgr : ∀ x ∈ (groupRows df G k).map (fun r => r.get "amount"), x ≠ none := by
      intro x hx
      obtain ⟨r, hr, rfl⟩ := List.mem_map.1 hx
      exact hamt r (List.mem_of_mem_filter hr)
    rw [total_transactions_of, groupAmounts, length_filterMap_id_of_ne_none _ hgr,
      List.length_map, groupRows, ← List.countP_eq_length_filter,
      count_filterMap_id, Table.col, List.countP_map]
    rfl
  rw [groupKeys, List.map_congr_left (fun k _ => htt k)]
  have hperm := (uniqueFirst_perm_dedup ((df.col G).filterMap id)).map
      (fun k => ((df.col G).filterMap id).count k)
  rw [hperm.sum_eq, List.sum_map_count_dedup_eq_length]
  exact hlen

/-- C4 witness: the partition identity on the concrete full-schema fixture
(three rows, two merchant groups of sizes 2 and 1). -/
theorem c4_total_transactions_partition_witness :
    (∀ r ∈ tFull.rows, r.get "merchant_id" ≠ none) ∧
    (∀ r ∈ tFull.rows, r.get "amount" ≠ none) ∧
    ((groupKeys tFull "merchant_id").map (total_transactions_of tFull "merchant_id")).sum =
      tFull.rows.length :=
  ⟨by decide, by decide,
   c4_total_transactions_partition tFull "merchant_id" (by decide) (by decide)⟩

/-- C4 counterexample: a one-row table whose grouping cell is null has no
group at all, so the sum of `total_transactions` over the groups is 0 while
the table has 1 row. -/
theorem c4_counterexample :
    ((groupKeys tNullKey "merchant_id").map
      (total_transactions_of tNullKey "merchant_id")).sum = 0 ∧
    tNullKey.rows.length = 1 ∧ (0 : Nat) ≠ 1 :=
  ⟨rfl, rfl, by decide⟩

/-- C7 (corrected): in the agents NL-filter route, when intent classification
returns false AND the extracted grouping column is one on which the Attribute
Aggregator succeeds, the pipeline aborts with the intent-not-recognized 400
failure, for every possible extraction result — so no filter is applied and
the Structured-Filter Service is never invoked.  (When the grouping column is
null the route instead fails inside `add_computed_attributes` before the
intent flag is tested — see the counterexample and C9.) -/
theorem c7_intent_false_aborts (df : Table) (c : String)
    (extracted : Except PyErr (Option FilterObj))
    (henr : (add_computed_attributes df (some c)).isOk = true) :
    nl_filter_agent_data df false (some c) extracted =
      .error (.httpException 400 "Could not determine filtering criteria from query") ∧
    surfacedStatus (.httpException 400 "Could not determine filtering criteria from query") = 400 := by
  refine ⟨?_, rfl⟩
  match hA : add_computed_attributes df (some c) with
  | .error e => rw [hA] at henr; cases henr
  | .ok df2 =>
    unfold nl_filter_agent_data
    rw [hA]
    rfl

/-- C7 witness: the amended statement on the concrete full-schema fixture,
whose enrichment by `merchant_id` succeeds. -/
theorem c7_intent_false_aborts_witness :
    (add_computed_attributes tFull (some "merchant_id")).isOk = true ∧
    nl_filter_agent_data tFull false (some "merchant_id") (.ok none) =
      .error (.httpException 400 "Could not determine filtering criteria from query") :=
  ⟨rfl, (c7_intent_false_aborts tFull "merchant_id" (.ok none) rfl).1⟩

/-- C7 counterexample: with intent classification false and a null extracted
grouping column, the route does not abort with the intent-not-recognized
failure: it fails first inside the Attribute Aggregator with a TypeError,
surfaced as a 500-equivalent server error. -/
theorem c7_counterexample :
    nl_filter_agent_data tFull false none (.ok (some (.and []))) =
      .error (.typeError "You have to supply one of by and level") ∧
    surfacedStatus (.typeError "You have to supply one of by and level") = 500 ∧
    ∀ d, PyErr.typeError "You have to supply one of by and level" ≠ .httpException 400 d :=
  ⟨rfl, rfl, fun _ h => PyErr.noConfusion h⟩

/-- Projection keeps the value of every projected column. -/
theorem Row.get_project (cols : List String) (r : Row) (c : String) (hc : c ∈ cols) :
    Row.get (project cols r) c = r.get c := by
  induction cols with
  | nil => cases hc
  | cons c0 cs ih =>
    by_cases h : c = c0
    · subst h
      simp [project, Row.get, List.lookup]
    · have hc2 : c ∈ cs := by
        rcases List.mem_cons.1 hc with h0 | h0
        · exact absurd h0 h
        · exact h0
      have hbeq : (c == c0) = false := beq_eq_false_iff_ne.2 h
      simp only [project, List.map_cons, Row.get, List.lookup, hbeq]
      exact ih hc2

/-- De-duplication of projected rows, characterized: the result lists, for
each distinct not-yet-seen key value in first-occurrence order, the projection
of the first row carrying that key. -/
theorem drop_duplicatesAux_map_project (id_col : String) (avail : List String)
    (hid : id_col ∈ avail) (l : List Row) :
    ∀ seen : List Cell,
    drop_duplicatesAux id_col seen (l.map (project avail)) =
      (uniqueFirstAux seen (l.map (fun r => r.get id_col))).filterMap
        (fun k => (l.find? (fun r => r.get id_col == k)).map (project avail)) := by
  induction l with
  | nil => intro seen; rfl
  | cons r rs ih =>
    intro seen
    have hkey : Row.get (project avail r) id_col = r.get id_col :=
      Row.get_project avail r id_col hid
    simp only [List.map_cons, drop_duplicatesAux, uniqueFirstAux, hkey]
    by_cases hs : r.get id_col ∈ seen
    · rw [if_pos hs, if_pos hs, ih seen]
      refine List.filterMap_congr ?_
      intro k hk
      have hk2 : k ∉ seen := ((mem_uniqueFirstAux _ _ _).1 hk).2
      have hne : (r.get id_col == k) = false :=
        beq_eq_false_iff_ne.2 (fun h => hk2 (h ▸ hs))
      rw [List.find?_cons_of_neg _ (by simp [hne])]
    · rw [if_neg hs, if_neg hs, List.filterMap_cons]
      have hself : (r.get id_col == r.get id_col) = true := beq_self_eq_true _
      rw [List.find?_cons_of_pos _ (by simp)]
      simp only [Option.map_some']
      rw [ih (r.get id_col :: seen)]
      refine congrArg _ (List.filterMap_congr ?_)
      intro k hk
      have hk2 : k ∉ r.get id_col :: seen := ((mem_uniqueFirstAux _ _ _).1 hk).2
      have hne : (r.get id_col == k) = false :=
        beq_eq_false_iff_ne.2 (fun h => hk2 (h ▸ List.mem_cons_self _ _))
      rw [List.find?_cons_of_neg _ (by simp [hne])]

/-- A `filterMap` whose function is defined on every element keeps the length. -/
theorem length_filterMap_isSome {α β : Type} (f : α → Option β) (l : List α)
    (h : ∀ a ∈ l, (f a).isSome = true) : (l.filterMap f).length = l.length := by
  induction l with
  | nil => rfl
  | cons x l ih =>
    match hx : f x, h x (List.mem_cons_self _ _) with
    | some b, _ =>
      simp only [List.filterMap_cons, hx, List.length_cons]
      rw [ih (fun y hy => h y (List.mem_cons_of_mem _ hy))]

/-- `apply_structured_filter`, rewritten: a successful evaluation selects by
the mask, projects onto the available columns and de-duplicates by the id
column (the empty-selection early return coincides with de-duplicating the
empty list). -/
theorem apply_structured_filter_ok (df : Table) (fs : FilterObj) (id_col : String)
    (acols : List String) (mask : List Bool) (hmask : apply_filter df fs = .ok mask)
    (hidav : id_col ∈ acols.filter (fun c => c ∈ df.cols)) :
    apply_structured_filter df fs id_col acols =
      .ok (drop_duplicates id_col ((maskSelect df.rows mask).map
        (project (acols.filter (fun c => c ∈ df.cols))))) := by
  unfold apply_structured_filter
  rw [hmask]
  show (match (if (maskSelect df.rows mask).isEmpty then (.ok [] : Except PyErr (List Row))
      else if id_col ∈ acols.filter (fun c => c ∈ df.cols) then
        .ok (drop_duplicates id_col ((maskSelect df.rows mask).map
          (project (acols.filter (fun c => c ∈ df.cols)))))
      else .error (.keyError id_col)) with
    | Except.error (PyErr.valueError m) => (Except.error (PyErr.httpException 400 m) : Except PyErr (List Row))
    | r => r) =
    .ok (drop_duplicates id_col ((maskSelect df.rows mask).map
      (project (acols.filter (fun c => c ∈ df.cols)))))
  by_cases hfe : (maskSelect df.rows mask).isEmpty = true
  · rw [if_pos hfe]
    rw [List.isEmpty_iff.1 hfe]
    rfl
  · rw [if_neg hfe, if_pos hidav]

/-- C8 (confirmed): when the filter evaluates to a mask, the Structured-Filter
Service returns exactly one row per distinct entity-id value occurring among
the mask-selected rows (so exactly K result rows when the selected rows span K
distinct ids), namely — in first-occurrence order — the projection, onto the
available attribute columns, of the first selected row carrying that id. -/
theorem c8_structured_filter_dedupe (df : Table) (fs : FilterObj) (id_col : String)
    (acols : List String) (mask : List Bool)
    (hmask : apply_filter df fs = .ok mask) (hid : id_col ∈ df.cols)
    (hacol : id_col ∈ acols) :
    apply_structured_filter df fs id_col acols =
      .ok ((uniqueFirst ((maskSelect df.rows mask).map (fun r => r.get id_col))).filterMap
        (fun k => ((maskSelect df.rows mask).find? (fun r => r.get id_col == k)).map
          (project (acols.filter (fun c => c ∈ df.cols))))) ∧
    ((uniqueFirst ((maskSelect df.rows mask).map (fun r => r.get id_col))).filterMap
        (fun k => ((maskSelect df.rows mask).find? (fun r => r.get id_col == k)).map
          (project (acols.filter (fun c => c ∈ df.cols))))).length =
      (uniqueFirst ((maskSelect df.rows mask).map (fun r => r.get id_col))).length := by
  have hlen : ∀ k ∈ uniqueFirst ((maskSelect df.rows mask).map (fun r => r.get id_col)),
      ((((maskSelect df.rows mask).find? (fun r => r.get id_col == k)).map
        (project (acols.filter (fun c => c ∈ df.cols))))).isSome = true := by
    intro k hk
    have hk2 : k ∈ (maskSelect df.rows mask).map (fun r => r.get id_col) :=
      ((mem_uniqueFirstAux _ _ _).1 hk).1
    obtain ⟨r, hr, rfl⟩ := List.mem_map.1 hk2
    have hfind : ((maskSelect df.rows mask).find?
        (fun r2 => r2.get id_col == r.get id_col)).isSome = true :=
      List.find?_isSome.2 ⟨r, hr, beq_self_eq_true _⟩
    obtain ⟨x, hx⟩ := Option.isSome_iff_exists.1 hfind
    rw [hx]
    rfl
  refine ⟨?_, length_filterMap_isSome _ _ hlen⟩
  have hidav : id_col ∈ acols.filter (fun c => c ∈ df.cols) :=
    List.mem_filter.2 ⟨hacol, by simpa using hid⟩
  rw [apply_structured_filter_ok df fs id_col acols mask hmask hidav, drop_duplicates,
    drop_duplicatesAux_map_project id_col _ hidav (maskSelect df.rows mask) []]
  rfl

/-- C8 witness: on the concrete three-row fixture (merchant ids 1, 1, 2, all
rows passing the filter), the service returns exactly the 2 first-occurrence
rows of the 2 distinct ids. -/
theorem c8_structured_filter_dedupe_witness :
    apply_filter tShort (.cmp "amount" "greater_than" (.scalar 0)) = .ok [true, true, true] ∧
    "merchant_id" ∈ tShort.cols ∧ "merchant_id" ∈ ["merchant_id"] ∧
    apply_structured_filter tShort (.cmp "amount" "greater_than" (.scalar 0)) "merchant_id"
        ["merchant_id"] =
      .ok ((uniqueFirst ((maskSelect tShort.rows [true, true, true]).map
          (fun r => r.get "merchant_id"))).filterMap
        (fun k => ((maskSelect tShort.rows [true, true, true]).find?
            (fun r => r.get "merchant_id" == k)).map
          (project (["merchant_id"].filter (fun c => c ∈ tShort.cols))))) ∧
    apply_structured_filter tShort (.cmp "amount" "greater_than" (.scalar 0)) "merchant_id"
        ["merchant_id"] =
      .ok [[("merchant_id", some 1)], [("merchant_id", some 2)]] := by
  refine ⟨rfl, by decide, by decide, ?_, ?_⟩
  · exact (c8_structured_filter_dedupe tShort (.cmp "amount" "greater_than" (.scalar 0))
      "merchant_id" ["merchant_id"] [true, true, true] rfl (by decide) (by decide)).1
  · rfl
